import Mathlib

/-!
Formal model of the outgassing MCP server query engine (`src/main.py`).

The dataset is a pandas DataFrame with columns
`ID, Sample Material, MFR, TML, CVCM, WVR, Material Usage`; it is modelled
as a `List MaterialRecord` in row order.  Floating-point columns are
modelled as exact rationals (the operations exercised by the program are
subtraction and order comparison, which the rationals model faithfully);
missing values (`NaN` for floats, `NaN`/`None` for strings) are modelled
with `Option`.  Each MCP tool returns a JSON string; serialisation is out
of scope, so a tool is modelled as returning the structured value that is
serialised, with the bare (non-JSON) string return on dataset-load failure
kept as a separate constructor.
-/

namespace Outgassing

/-- One row of the outgassing dataset.  Fields mirror the CSV columns
`ID, Sample Material, MFR, TML, CVCM, WVR, Material Usage`; `wvr` and
`material_usage` are nullable in the data. -/
structure MaterialRecord where
  id : String
  sample_material : String
  mfr : String
  tml : ℚ
  cvcm : ℚ
  wvr : Option ℚ
  material_usage : Option String
deriving DecidableEq, Repr

/-- Model of `numpy.select` with a single condition/choice pair: at each
position, the choice value where the condition holds, the default
elsewhere. -/
def npSelect1 : List Bool → List ℚ → List ℚ → List ℚ
  | c :: cs, x :: xs, d :: ds => (if c then x else d) :: npSelect1 cs xs ds
  | _, _, _ => []

/-- Model of `calculate_adjusted_tml(df)` (src/main.py lines 32-40):
`np.select([~pd.isna(df.WVR)], [df.TML - df.WVR], default=df.TML)`.
The vectorised subtraction `df.TML - df.WVR` is NaN at rows whose WVR is
missing, but those positions are never selected (their condition is
false), so the subtrahend there is modelled by the dummy value 0. -/
def calculate_adjusted_tml (df : List MaterialRecord) : List ℚ :=
  npSelect1 (df.map (fun r => r.wvr.isSome))
            (df.map (fun r => r.tml - r.wvr.getD 0))
            (df.map (fun r => r.tml))

/-- Per-row adjusted-TML rule: `TML - WVR` when WVR is present, else
`TML`. -/
def adjustedTml (r : MaterialRecord) : ℚ :=
  match r.wvr with
  | some w => r.tml - w
  | none => r.tml

theorem calculate_adjusted_tml_eq_map (df : List MaterialRecord) :
    calculate_adjusted_tml df = df.map adjustedTml := by
  induction df with
  | nil => rfl
  | cons r df ih =>
      cases hw : r.wvr with
      | none =>
          simp [calculate_adjusted_tml, npSelect1, adjustedTml, hw] at ih ⊢
          exact ih
      | some w =>
          simp [calculate_adjusted_tml, npSelect1, adjustedTml, hw] at ih ⊢
          exact ih

/-- C1: for every row of the dataset, the derived adjusted TML equals
`tml - wvr` when `wvr` is present and `tml` otherwise (exact subtraction,
no clamping, so negative results are allowed); the rule is applied
independently row by row (the value at row `i` depends only on row `i`),
and the input dataset is not mutated (`calculate_adjusted_tml` is a pure
function producing a fresh series of the same length). -/
theorem calculate_adjusted_tml_per_row (df : List MaterialRecord) (i : ℕ)
    (hi : i < df.length) :
    (calculate_adjusted_tml df).length = df.length ∧
    (calculate_adjusted_tml df)[i]? = some (adjustedTml df[i]) ∧
    (∀ w, df[i].wvr = some w → adjustedTml df[i] = df[i].tml - w) ∧
    (df[i].wvr = none → adjustedTml df[i] = df[i].tml) := by
  refine ⟨?_, ?_, ?_, ?_⟩
  · simp [calculate_adjusted_tml_eq_map]
  · simp [calculate_adjusted_tml_eq_map, List.getElem?_map,
      List.getElem?_eq_getElem hi]
  · intro w hw
    simp [adjustedTml, hw]
  · intro hw
    simp [adjustedTml, hw]

/-- Concrete witness for C1: a one-row dataset with `tml = 1/2` and
`wvr = 4/5`; the adjusted TML is the negative value `-3/10`. -/
theorem calculate_adjusted_tml_per_row_witness :
    (0 : ℕ) < ([⟨"1", "A", "m", 1/2, 0, some (4/5), none⟩] :
        List MaterialRecord).length ∧
    ((calculate_adjusted_tml
        [⟨"1", "A", "m", 1/2, 0, some (4/5), none⟩]).length = 1 ∧
      (calculate_adjusted_tml
        [⟨"1", "A", "m", 1/2, 0, some (4/5), none⟩])[0]? =
        some (adjustedTml (⟨"1", "A", "m", 1/2, 0, some (4/5), none⟩ :
          MaterialRecord)) ∧
      (∀ w, (⟨"1", "A", "m", 1/2, 0, some (4/5), none⟩ :
          MaterialRecord).wvr = some w →
        adjustedTml (⟨"1", "A", "m", 1/2, 0, some (4/5), none⟩ :
          MaterialRecord) = (1 : ℚ)/2 - w) ∧
      ((⟨"1", "A", "m", 1/2, 0, some (4/5), none⟩ :
          MaterialRecord).wvr = none →
        adjustedTml (⟨"1", "A", "m", 1/2, 0, some (4/5), none⟩ :
          MaterialRecord) = 1/2)) ∧
    adjustedTml (⟨"1", "A", "m", 1/2, 0, some (4/5), none⟩ :
      MaterialRecord) < 0 :=
  ⟨by decide,
   calculate_adjusted_tml_per_row
     [⟨"1", "A", "m", 1/2, 0, some (4/5), none⟩] 0 (by decide),
   by norm_num [adjustedTml]⟩

/-! ### Dataset loading and the tool return shape -/

/-- Return shape of one MCP tool call: either the bare (non-JSON) error
string that `load_outgassing_data` produced, returned unchanged by the
tool (`if isinstance(df, str): return df`), or the structured payload that
the tool serialises with `json.dumps`. -/
inductive ToolReturn (α : Type) where
  | errStr (s : String)
  | json (r : α)
deriving DecidableEq, Repr

/-- Model of `load_outgassing_data` (src/main.py lines 16-30).  The file
read itself is external; the model takes the outcome of `pd.read_csv` as
a parameter (`Except.ok df` when the CSV parsed into the frame `df`,
`Except.error e` when it raised with message `e`) and returns what the
function returns: the frame, or the formatted error string.  The
module-level cache only memoises this outcome between calls and is
invisible to any single call. -/
def load_outgassing_data (src : Except String (List MaterialRecord)) :
    Except String (List MaterialRecord) :=
  match src with
  | .ok df => .ok df
  | .error e => .error ("Error: Unable to load outgassing data - " ++ e)

/-! ### Model of `Series.str.contains(pat, case=False, na=False)`

pandas compiles `pat` as a regular expression (`regex=True` is the
default) with `re.IGNORECASE` and applies `re.search` to every cell.
The fragment of Python regular expressions modelled here covers literal
characters and the `.` wildcard, which are the only constructs appearing
in this development; `re.IGNORECASE` on this fragment is equivalent to
lower-casing both pattern and string (ASCII data). -/

/-- One token of the modelled regular-expression fragment: the `.`
wildcard, which matches any character, or a literal character. -/
inductive ReTok where
  | dot
  | lit (c : Char)
deriving DecidableEq, Repr

/-- Compile a pattern (as a character list): `.` becomes the wildcard,
every other character a literal. -/
def compilePat (pat : List Char) : List ReTok :=
  pat.map (fun c => if c = '.' then ReTok.dot else ReTok.lit c)

/-- Whether a single token matches a single character. -/
def tokMatch : ReTok → Char → Bool
  | .dot, _ => true
  | .lit c, d => c == d

/-- Whether the token list matches a prefix of the character list. -/
def matchHere : List ReTok → List Char → Bool
  | [], _ => true
  | _ :: _, [] => false
  | t :: ts, c :: cs => tokMatch t c && matchHere ts cs

/-- Model of `re.search`: the token list matches at some position of the
character list. -/
def reSearch (ts : List ReTok) : List Char → Bool
  | [] => matchHere ts []
  | c :: cs => matchHere ts (c :: cs) || reSearch ts cs

/-- Lower-case a character list (Python `str.lower()` on ASCII data,
which is what `re.IGNORECASE` amounts to on the modelled fragment). -/
def lowerChars (cs : List Char) : List Char :=
  cs.map Char.toLower

/-- Model of `df['Material Usage'].str.contains(application, case=False,
na=False)` applied to one cell: missing cells give `False` (`na=False`),
present cells are searched with the pattern compiled as a regular
expression, case-insensitively. -/
def strContainsCI (pat : String) (cell : Option String) : Bool :=
  match cell with
  | none => false
  | some s => reSearch (compilePat (lowerChars pat.toList)) (lowerChars s.toList)

/-- Specification-side predicate, following the claim text for the
category search: the cell is present and contains the query as a
case-insensitive literal substring (every pattern character taken
verbatim, no wildcard).  Kept separate from `strContainsCI` so the two
selection semantics can be compared. -/
def usageContainsSubstrCI (pat : String) (cell : Option String) : Bool :=
  match cell with
  | none => false
  | some s => reSearch (lowerChars pat.toList |>.map ReTok.lit) (lowerChars s.toList)

/-! ### Category enumeration (`get_applications`) and discovery hints -/

/-- First-seen-order deduplication, the order contract of
`pandas.Series.unique()`. -/
def uniqueFirstSeen : List String → List String
  | [] => []
  | x :: xs => x :: uniqueFirstSeen (xs.filter (fun y => y ≠ x))
termination_by l => l.length
decreasing_by
  exact Nat.lt_succ_of_le (List.length_filter_le _ _)

/-- Payload of `get_applications` (src/main.py lines 149-164). -/
structure AppsResult where
  total_applications : ℕ
  applications : List String
deriving DecidableEq, Repr

/-- Model of `get_applications`: the distinct non-missing
`Material Usage` values in first-seen order, with their count. -/
def get_applications (src : Except String (List MaterialRecord)) :
    ToolReturn AppsResult :=
  match load_outgassing_data src with
  | .error s => .errStr s
  | .ok df =>
      let unique_apps := uniqueFirstSeen (df.filterMap (fun r => r.material_usage))
      .json { total_applications := unique_apps.length, applications := unique_apps }

/-- Ordering used to model `value_counts()`: by decreasing count, ties in
first-seen order (the sort below is stable). -/
def countGE (a b : String × ℕ) : Prop := b.2 ≤ a.2

instance : DecidableRel countGE := fun a b => inferInstanceAs (Decidable (b.2 ≤ a.2))

/-- Model of `df['Material Usage'].value_counts().head(10).index.tolist()`:
the distinct non-missing usage values ordered by decreasing number of
occurrences, truncated to ten.  This list only fills the discovery hint
of the empty category-search result; no claim inspects it. -/
def value_counts_head10 (df : List MaterialRecord) : List String :=
  let vals := df.filterMap (fun r => r.material_usage)
  (((uniqueFirstSeen vals).map (fun v => (v, vals.count v))).insertionSort countGE).map
    (fun p => p.1) |>.take 10

/-! ### Category-search mode (`search_by_application`) -/

/-- One entry of the category-search result list (src/main.py lines
211-222); all detail columns are always included in this mode. -/
structure AppEntry where
  sample_material : String
  id : String
  manufacturer : String
  tml : ℚ
  cvcm : ℚ
  wvr : Option ℚ
  material_usage : Option String
  tml_pass : Bool
  cvcm_pass : Bool
deriving DecidableEq, Repr

/-- Structured payload of `search_by_application`.  The zero-match early
return carries `message` and `available_applications` and no
`showing_only_compliant` flag; the normal return is the reverse.  Fields
a branch does not emit are `none`. -/
structure AppResult where
  query : String
  max_tml : ℚ
  max_cvcm : ℚ
  results : List AppEntry
  total_found : ℕ
  showing_only_compliant : Option Bool
  message : Option String
  available_applications : Option (List String)
deriving DecidableEq, Repr

/-- Rows of the filtered frame together with their `tml_pass` /
`cvcm_pass` columns: `calculate_adjusted_tml` is evaluated on the
filtered frame and compared column-wise against the thresholds
(src/main.py lines 200-204). -/
def withFlags (max_tml max_cvcm : ℚ) (results : List MaterialRecord) :
    List (MaterialRecord × Bool × Bool) :=
  (results.zip (calculate_adjusted_tml results)).map
    (fun p => (p.1, decide (p.2 ≤ max_tml), decide (p.1.cvcm ≤ max_cvcm)))

theorem withFlags_eq_map (max_tml max_cvcm : ℚ) (l : List MaterialRecord) :
    withFlags max_tml max_cvcm l =
      l.map (fun r =>
        (r, decide (adjustedTml r ≤ max_tml), decide (r.cvcm ≤ max_cvcm))) := by
  unfold withFlags
  rw [calculate_adjusted_tml_eq_map]
  induction l with
  | nil => rfl
  | cons r l ih => simpa using ih

/-- Shape one flagged row into a result entry (src/main.py lines
211-222). -/
def mkAppEntry (t : MaterialRecord × Bool × Bool) : AppEntry :=
  { sample_material := t.1.sample_material
    id := t.1.id
    manufacturer := t.1.mfr
    tml := t.1.tml
    cvcm := t.1.cvcm
    wvr := t.1.wvr
    material_usage := t.1.material_usage
    tml_pass := t.2.1
    cvcm_pass := t.2.2 }

/-- Core of `search_by_application` (src/main.py lines 166-230) once a
frame is available: filter by the application pattern, flag compliance,
keep only compliant rows, and shape the result.  Note that the rows are
emitted in frame order: the code applies no sort in this mode. -/
def search_by_application_frame (application : String) (max_tml max_cvcm : ℚ)
    (df : List MaterialRecord) : AppResult :=
  let results := df.filter (fun r => strContainsCI application r.material_usage)
  if results.length = 0 then
    { query := application
      max_tml := max_tml
      max_cvcm := max_cvcm
      results := []
      total_found := 0
      showing_only_compliant := none
      message := some ("No materials found for application \x27" ++ application ++ "\x27")
      available_applications := some (value_counts_head10 df) }
  else
    let flagged := withFlags max_tml max_cvcm results
    let compliant_results := flagged.filter (fun t => t.2.1 && t.2.2)
    { query := application
      max_tml := max_tml
      max_cvcm := max_cvcm
      results := compliant_results.map mkAppEntry
      total_found := results.length
      showing_only_compliant := some true
      message := none
      available_applications := none }

/-- Model of the `search_by_application` tool: load the dataset (bare
error string on failure), then run the frame-level query. -/
def search_by_application (src : Except String (List MaterialRecord))
    (application : String) (max_tml max_cvcm : ℚ) : ToolReturn AppResult :=
  match load_outgassing_data src with
  | .error s => .errStr s
  | .ok df => .json (search_by_application_frame application max_tml max_cvcm df)

/-! ### Fuzzy matching and name-search mode (`search_materials`) -/

/-- Similarity scorer: the model of `fuzz.WRatio` composed with the
`utils.default_process` normalisation.  The weighted-ratio string metric
is an external library function, so it enters the model as a parameter
`scorer query choice`; every theorem below holds for an arbitrary
scorer (rapidfuzz guarantees values in `[0, 100]`, which no claim
needs). -/
abbrev Scorer := String → String → ℚ

/-- Candidate order used by the extraction step: decreasing score. -/
def candGE (a b : String × ℚ) : Prop := b.2 ≤ a.2

instance : DecidableRel candGE := fun a b => inferInstanceAs (Decidable (b.2 ≤ a.2))

instance : IsTotal (String × ℚ) candGE := ⟨fun a b => le_total b.2 a.2⟩

instance : IsTrans (String × ℚ) candGE := ⟨fun _ _ _ h h2 => le_trans h2 h⟩

/-- Model of `process.extract(material, choices, scorer=fuzz.WRatio,
processor=utils.default_process, limit=lim)` (src/main.py line 64):
score every choice, order by decreasing score with ties in first-seen
choice order (the insertion sort is stable), and keep the best `lim`
pairs. -/
def extract (scorer : Scorer) (query : String) (choices : List String)
    (lim : ℕ) : List (String × ℚ) :=
  ((choices.map (fun c => (c, scorer query c))).insertionSort candGE).take lim

/-- The fixed fuzzy-match quality threshold (src/main.py line 9). -/
def MATCH_THRESHOLD : ℚ := 82

/-- Model of the dict comprehension
`{match[0]: match[1] for match in matched_materials if match[1] > MATCH_THRESHOLD}`
(line 67), kept as the filtered pair list.  Duplicate keys always carry
equal scores (the score is a function of the choice string), so the
last-written-wins lookup below is indifferent to duplicates. -/
def match_scores (scorer : Scorer) (query : String) (choices : List String) :
    List (String × ℚ) :=
  (extract scorer query choices 100).filter (fun m => decide (MATCH_THRESHOLD < m.2))

/-- Python dict key membership (`.keys()` / `isin`). -/
def dictMem (d : List (String × ℚ)) (k : String) : Bool :=
  d.any (fun p => p.1 == k)

/-- Python dict lookup: the value of the last pair written for the key
(`Series.map` of a dict). -/
def dictFind (d : List (String × ℚ)) (k : String) : Option ℚ :=
  (d.reverse.find? (fun p => p.1 == k)).map (fun p => p.2)

/-- Row selection `df[df['Sample Material'].isin(match_scores.keys())]`
(line 69): the rows whose name is a key of the score dict, in frame
order. -/
def selectedRows (scorer : Scorer) (query : String)
    (df : List MaterialRecord) : List MaterialRecord :=
  df.filter (fun r =>
    dictMem (match_scores scorer query (df.map (fun x => x.sample_material)))
      r.sample_material)

/-- One selected row with its computed columns (`match_score`,
`adjusted_tml`, `tml_pass`, `cvcm_pass`). -/
structure ScoredRow where
  record : MaterialRecord
  match_score : ℚ
  adjusted_tml : ℚ
  tml_pass : Bool
  cvcm_pass : Bool
deriving DecidableEq, Repr

/-- Attach the match-score column
(`results['match_score'] = results['Sample Material'].map(match_scores)`,
line 72) and the compliance columns (lines 86-89): `adjusted_tml` is
`calculate_adjusted_tml` of the selected frame, compared column-wise
against the thresholds.  `dictFind` is `some` on every selected row;
`getD 0` stands in for the NaN a failed lookup would produce. -/
def scoreRows (max_tml max_cvcm : ℚ) (ms : List (String × ℚ))
    (results : List MaterialRecord) : List ScoredRow :=
  ((results.map (fun r => (r, (dictFind ms r.sample_material).getD 0))).zip
      (calculate_adjusted_tml results)).map
    (fun p =>
      { record := p.1.1
        match_score := p.1.2
        adjusted_tml := p.2
        tml_pass := decide (p.2 ≤ max_tml)
        cvcm_pass := decide (p.1.1.cvcm ≤ max_cvcm) })

theorem scoreRows_eq_map (max_tml max_cvcm : ℚ) (ms : List (String × ℚ))
    (l : List MaterialRecord) :
    scoreRows max_tml max_cvcm ms l =
      l.map (fun r =>
        { record := r
          match_score := (dictFind ms r.sample_material).getD 0
          adjusted_tml := adjustedTml r
          tml_pass := decide (adjustedTml r ≤ max_tml)
          cvcm_pass := decide (r.cvcm ≤ max_cvcm) }) := by
  unfold scoreRows
  rw [calculate_adjusted_tml_eq_map]
  induction l with
  | nil => rfl
  | cons r l ih => simpa using ih

/-- Ascending key order of the name-search sort. -/
def scoreLE (a b : ScoredRow) : Prop := a.match_score ≤ b.match_score

instance : DecidableRel scoreLE :=
  fun a b => inferInstanceAs (Decidable (a.match_score ≤ b.match_score))

instance : IsTotal ScoredRow scoreLE := ⟨fun _ _ => le_total _ _⟩

instance : IsTrans ScoredRow scoreLE := ⟨fun _ _ _ => le_trans⟩

/-- Model of `results.sort_values('match_score', ascending=False)`
(line 92).  For a descending sort, pandas `nargsort`
(`pandas.core.sorting`) reverses the key values and the index array
before running the stable ascending argsort kernel and reverses the
resulting indexer after it — the fix for pandas issue GH#6399 — so the
double reversal makes the descending sort stable: tied rows keep their
relative frame order.  The model is accordingly reverse, stable
ascending insertion sort, reverse. -/
def sort_values_desc (rows : List ScoredRow) : List ScoredRow :=
  (rows.reverse.insertionSort scoreLE).reverse

/-- One entry of the name-search result list (lines 117-135).  The
`id`, `manufacturer` and `wvr` fields are only present when
`include_details` is set; absence is `none` (for `wvr`, the outer
`Option` is presence of the field, the inner one nullability of the
column). -/
structure SMEntry where
  sample_material : String
  match_score : ℤ
  tml : ℚ
  cvcm : ℚ
  material_usage : Option String
  tml_pass : Bool
  cvcm_pass : Bool
  id : Option String
  manufacturer : Option String
  wvr : Option (Option ℚ)
deriving DecidableEq, Repr

/-- Structured payload of `search_materials`.  The two early returns
(zero matches, line 74; zero compliant matches under `compliant_only`,
line 101) do not emit `results_truncated` or `compliant_only`; absent
fields are `none`. -/
structure SMResult where
  query : String
  max_tml : ℚ
  max_cvcm : ℚ
  results : List SMEntry
  total_matched : ℕ
  total_compliant : ℕ
  results_returned : ℕ
  results_truncated : Option Bool
  compliant_only : Option Bool
  message : String
deriving DecidableEq, Repr

/-- Python `int()` applied to a float: truncation toward zero. -/
def pyInt (q : ℚ) : ℤ :=
  if 0 ≤ q then ⌊q⌋ else ⌈q⌉

/-- Model of `DataFrame.head(n)` for an `int` argument: the first `n`
rows when `n ≥ 0`, all rows but the last `|n|` when `n` is negative. -/
def pyHead {α : Type} (n : ℤ) (l : List α) : List α :=
  if 0 ≤ n then l.take n.toNat else l.take (l.length - (-n).toNat)

/-- Shape one surviving row into a result entry (lines 117-135). -/
def mkSMEntry (include_details : Bool) (row : ScoredRow) : SMEntry :=
  { sample_material := row.record.sample_material
    match_score := pyInt row.match_score
    tml := row.record.tml
    cvcm := row.record.cvcm
    material_usage := row.record.material_usage
    tml_pass := row.tml_pass
    cvcm_pass := row.cvcm_pass
    id := if include_details then some row.record.id else none
    manufacturer := if include_details then some row.record.mfr else none
    wvr := if include_details then some row.record.wvr else none }

/-- Core of `search_materials` (src/main.py lines 42-147) once a frame is
available: fuzzy-select rows, early-return on zero matches, attach
compliance columns, sort by descending match score, count, optionally
drop non-compliant rows (early-return when that empties the frame),
truncate to `limit`, and shape the result. -/
def search_materials_frame (scorer : Scorer) (material : String)
    (max_tml max_cvcm : ℚ) (limit : ℤ) (compliant_only include_details : Bool)
    (df : List MaterialRecord) : SMResult :=
  let ms := match_scores scorer material (df.map (fun x => x.sample_material))
  let results0 := selectedRows scorer material df
  if results0.length = 0 then
    { query := material
      max_tml := max_tml
      max_cvcm := max_cvcm
      results := []
      total_matched := 0
      total_compliant := 0
      results_returned := 0
      results_truncated := none
      compliant_only := none
      message := "No materials found matching the search term" }
  else
    let rows := sort_values_desc (scoreRows max_tml max_cvcm ms results0)
    let total_matched := rows.length
    let total_compliant := (rows.filter (fun x => x.tml_pass && x.cvcm_pass)).length
    if compliant_only = true ∧ total_compliant = 0 then
      { query := material
        max_tml := max_tml
        max_cvcm := max_cvcm
        results := []
        total_matched := total_matched
        total_compliant := 0
        results_returned := 0
        results_truncated := none
        compliant_only := none
        message := "Found " ++ toString total_matched ++ " materials matching \x27" ++
          material ++ "\x27, but none meet compliance limits" }
    else
      let kept := if compliant_only then
          rows.filter (fun x => x.tml_pass && x.cvcm_pass)
        else rows
      let truncated := decide (limit < (kept.length : ℤ))
      let materials_list := (pyHead limit kept).map (mkSMEntry include_details)
      { query := material
        max_tml := max_tml
        max_cvcm := max_cvcm
        results := materials_list
        total_matched := total_matched
        total_compliant := total_compliant
        results_returned := materials_list.length
        results_truncated := some truncated
        compliant_only := some compliant_only
        message := "Found " ++ toString total_matched ++ " materials matching \x27" ++
          material ++ "\x27 (" ++ toString total_compliant ++ " compliant)" }

/-- Model of the `search_materials` tool: load the dataset (bare error
string on failure), then run the frame-level query. -/
def search_materials (scorer : Scorer) (src : Except String (List MaterialRecord))
    (material : String) (max_tml max_cvcm : ℚ) (limit : ℤ)
    (compliant_only include_details : Bool) : ToolReturn SMResult :=
  match load_outgassing_data src with
  | .error s => .errStr s
  | .ok df =>
      .json (search_materials_frame scorer material max_tml max_cvcm limit
        compliant_only include_details df)

/-! ### Lookup-by-id mode -/

/-- Modelled from the spec: `src/main.py` defines no lookup-by-id tool.
Spec §4.3 ("Lookup-by-id mode") specifies it: input the exact
`material_id` string key; return the single matching record verbatim
(all columns) or a not-found signal; no fuzzy matching, no compliance
computation.  `none` is the structured not-found signal. -/
def lookup_by_id (df : List MaterialRecord) (material_id : String) :
    Option MaterialRecord :=
  df.find? (fun r => r.id == material_id)

/-! ### General helper lemmas -/

theorem filter_map_map_sublist {α β γ : Type} (g : α → γ) (q : γ → Bool)
    (f : γ → β) (f' : α → β) (hfg : ∀ a, f (g a) = f' a) :
    ∀ l : List α, List.Sublist (((l.map g).filter q).map f) (l.map f') := by
  intro l
  induction l with
  | nil => simp
  | cons a l ih =>
      simp only [List.map_cons, List.filter_cons]
      by_cases hq : q (g a)
      · simpa [hq, hfg a] using ih.cons₂ (f' a)
      · simpa [hq] using ih.cons (f' a)

/-! ### Theorems for the error-handling claims C4 and C9 -/

/-- C4: code-bug evidence.  When the dataset load fails, every query
path returns the bare error string produced by `load_outgassing_data`
unchanged — a human-readable explanation, but a plain non-JSON string
(`ToolReturn.errStr`), not the structured JSON result that each tool
docstring promises and the claim requires. -/
theorem load_failure_returns_bare_string :
    search_materials (fun _ _ => (0 : ℚ)) (Except.error "No such file")
        "EPOXY" 1 1 10 true true =
      .errStr "Error: Unable to load outgassing data - No such file" ∧
    get_applications (Except.error "No such file") =
      .errStr "Error: Unable to load outgassing data - No such file" ∧
    search_by_application (Except.error "No such file") "TAPE" 1 1 =
      .errStr "Error: Unable to load outgassing data - No such file" :=
  ⟨rfl, rfl, rfl⟩

/-- C9 (spec-modelled): lookup-by-id returns the matching record
verbatim when the id is present (single match under the unique-id
invariant) and the structured not-found signal `none` when absent; the
function is total, so no exception can propagate, and neither fuzzy
matching nor compliance computation is involved. -/
theorem lookup_by_id_spec (df : List MaterialRecord) (material_id : String) :
    (∀ r, lookup_by_id df material_id = some r →
      r ∈ df ∧ r.id = material_id) ∧
    ((∀ r ∈ df, r.id ≠ material_id) → lookup_by_id df material_id = none) ∧
    (∀ r, r ∈ df → r.id = material_id → (df.map (fun x => x.id)).Nodup →
      lookup_by_id df material_id = some r) := by
  refine ⟨?_, ?_, ?_⟩
  · intro r hr
    refine ⟨List.mem_of_find?_eq_some hr, ?_⟩
    have := List.find?_some hr
    simpa using this
  · intro hnone
    unfold lookup_by_id
    rw [List.find?_eq_none]
    intro x hx
    simpa using hnone x hx
  · intro r hr hid hnodup
    have hsome : (lookup_by_id df material_id).isSome := by
      unfold lookup_by_id
      rw [List.find?_isSome]
      exact ⟨r, hr, by simpa using hid⟩
    obtain ⟨r', hr'⟩ := Option.isSome_iff_exists.mp hsome
    have hmem' : r' ∈ df := List.mem_of_find?_eq_some hr'
    have hid' : r'.id = material_id := by simpa using List.find?_some hr'
    have : r' = r :=
      List.inj_on_of_nodup_map hnodup hmem' hr (by rw [hid', hid])
    rw [hr', this]

/-- Witness for C9: in the dataset holding the single record with id
`"X2"`, looking up the absent id `"X1"` yields the structured not-found
signal and looking up `"X2"` returns the record verbatim. -/
theorem lookup_by_id_spec_witness :
    lookup_by_id [⟨"X2", "EPOXY", "m", 1, 0, none, none⟩] "X1" = none ∧
    lookup_by_id [⟨"X2", "EPOXY", "m", 1, 0, none, none⟩] "X2" =
      some ⟨"X2", "EPOXY", "m", 1, 0, none, none⟩ :=
  ⟨(lookup_by_id_spec [⟨"X2", "EPOXY", "m", 1, 0, none, none⟩] "X1").2.1
      (by decide),
   (lookup_by_id_spec [⟨"X2", "EPOXY", "m", 1, 0, none, none⟩] "X2").2.2
      ⟨"X2", "EPOXY", "m", 1, 0, none, none⟩ (by decide) rfl (by decide)⟩

/-! ### Theorems for the category-search claims C2 and C7 -/

/-- C2 counterexample: two compliant ADHESIVE rows stored with adjusted
TML `5` before `1`; the category search returns them in that same
dataset order, so the returned `adjusted_tml` sequence `[5, 1]` is not
monotonically non-decreasing — the code applies no sort in this mode. -/
theorem search_by_application_unsorted_counterexample :
    (match search_by_application (Except.ok
        [⟨"A", "EP A", "m", 5, 0, none, some "ADHESIVE"⟩,
         ⟨"B", "EP B", "m", 1, 0, none, some "ADHESIVE"⟩]) "ADHESIVE" 10 10 with
     | .json r => r.results.map (fun e => (e.id, e.tml))
     | .errStr _ => []) = [("A", 5), ("B", 1)] ∧
    adjustedTml ⟨"A", "EP A", "m", 5, 0, none, some "ADHESIVE"⟩ = 5 ∧
    adjustedTml ⟨"B", "EP B", "m", 1, 0, none, some "ADHESIVE"⟩ = 1 ∧
    ¬ ((5 : ℚ) ≤ 1) := by decide

/-- C2 amended: in category-search mode no sort is applied; the returned
entries appear in relative dataset order (their ids form an
order-preserving sublist of the dataset ids), ties included. -/
theorem search_by_application_dataset_order (application : String)
    (max_tml max_cvcm : ℚ) (df : List MaterialRecord) :
    List.Sublist
      ((search_by_application_frame application max_tml max_cvcm df).results.map
        (fun e => e.id))
      (df.map (fun r => r.id)) := by
  unfold search_by_application_frame
  by_cases h :
      (df.filter (fun r => strContainsCI application r.material_usage)).length = 0
  · simp [h]
  · rw [if_neg h]
    dsimp only
    rw [withFlags_eq_map, List.map_map]
    refine List.Sublist.trans
      (filter_map_map_sublist
        (fun r => (r, decide (adjustedTml r ≤ max_tml), decide (r.cvcm ≤ max_cvcm)))
        (fun t => t.2.1 && t.2.2)
        ((fun e : AppEntry => e.id) ∘ mkAppEntry)
        (fun r => r.id) (fun _ => rfl)
        (df.filter (fun r => strContainsCI application r.material_usage))) ?_
    exact (List.filter_sublist df).map (fun r => r.id)

/-- C7: code-bug evidence.  `search_by_application` hands the
application string to `Series.str.contains` with its default
`regex=True`, so the pattern `"."` — which never occurs in `"GLUE"` as a
literal substring — nevertheless matches the compliant GLUE row, and the
row is returned; under the claimed case-insensitive literal-substring
semantics the row must not match. -/
theorem search_by_application_regex_counterexample :
    (match search_by_application (Except.ok
        [⟨"G1", "GLUE", "m", 0, 0, none, some "GLUE"⟩]) "." 1 1 with
     | .json r => r.results.map (fun e => e.id)
     | .errStr _ => []) = ["G1"] ∧
    usageContainsSubstrCI "." (some "GLUE") = false ∧
    strContainsCI "." (some "GLUE") = true := by decide

/-! ### Lemmas about extraction, the score dict, and selection -/

theorem extract_length_le (scorer : Scorer) (query : String)
    (choices : List String) (lim : ℕ) :
    (extract scorer query choices lim).length ≤ lim := by
  unfold extract
  exact List.length_take_le _ _

theorem extract_mem (scorer : Scorer) (query : String) (choices : List String)
    (lim : ℕ) {p : String × ℚ} (hp : p ∈ extract scorer query choices lim) :
    p.1 ∈ choices ∧ p.2 = scorer query p.1 := by
  unfold extract at hp
  have hp2 := List.mem_of_mem_take hp
  rw [List.mem_insertionSort] at hp2
  obtain ⟨c, hc, hcp⟩ := List.mem_map.mp hp2
  cases hcp
  exact ⟨hc, rfl⟩

theorem mem_match_scores_iff (scorer : Scorer) (query : String)
    (choices : List String) (p : String × ℚ) :
    p ∈ match_scores scorer query choices ↔
      p ∈ extract scorer query choices 100 ∧ MATCH_THRESHOLD < p.2 := by
  unfold match_scores
  simp [List.mem_filter]

theorem dictMem_iff (d : List (String × ℚ)) (k : String) :
    dictMem d k = true ↔ ∃ s, (k, s) ∈ d := by
  unfold dictMem
  rw [List.any_eq_true]
  constructor
  · rintro ⟨⟨k', s⟩, hmem, hk⟩
    exact ⟨s, by simpa using (beq_iff_eq.mp hk ▸ hmem)⟩
  · rintro ⟨s, hmem⟩
    exact ⟨(k, s), hmem, by simp⟩

theorem dictFind_mem {d : List (String × ℚ)} {k : String} {v : ℚ}
    (h : dictFind d k = some v) : (k, v) ∈ d := by
  unfold dictFind at h
  obtain ⟨⟨k', v'⟩, hfind, hv⟩ := Option.map_eq_some'.mp h
  simp only at hv
  subst hv
  have hmem : (k', v') ∈ d.reverse := List.mem_of_find?_eq_some hfind
  have hk : k' = k := by simpa using List.find?_some hfind
  subst hk
  exact List.mem_reverse.mp hmem

theorem dictFind_isSome_of_mem {d : List (String × ℚ)} {k : String} {s : ℚ}
    (h : (k, s) ∈ d) : (dictFind d k).isSome := by
  unfold dictFind
  have hf : (d.reverse.find? (fun p => p.1 == k)).isSome := by
    rw [List.find?_isSome]
    exact ⟨(k, s), List.mem_reverse.mpr h, by simp⟩
  obtain ⟨p, hp⟩ := Option.isSome_iff_exists.mp hf
  simp [hp]

/-- Every value stored in the score dict is the scorer value of its key:
the dict fans a single per-name score out to all rows carrying the
name. -/
theorem dictFind_match_scores {scorer : Scorer} {query : String}
    {choices : List String} {k : String} {v : ℚ}
    (h : dictFind (match_scores scorer query choices) k = some v) :
    v = scorer query k := by
  have hmem := dictFind_mem h
  rw [mem_match_scores_iff] at hmem
  exact (extract_mem scorer query choices 100 hmem.1).2

/-- C5: in name-search mode the selected rows are exactly the rows of the
dataset whose `sample_material` appears among the fuzzy-extraction
candidates with score strictly greater than the threshold 82 (the
selection happens before any limit is applied), and every selected row
receives the score of its name as its `match_score` column — rows
sharing a name share that name`s single score. -/
theorem search_materials_selection (scorer : Scorer) (query : String)
    (max_tml max_cvcm : ℚ) (df : List MaterialRecord) :
    (∀ r, r ∈ selectedRows scorer query df ↔
      r ∈ df ∧ ∃ s, (r.sample_material, s) ∈
          extract scorer query (df.map (fun x => x.sample_material)) 100 ∧
        MATCH_THRESHOLD < s) ∧
    (∀ row ∈ scoreRows max_tml max_cvcm
        (match_scores scorer query (df.map (fun x => x.sample_material)))
        (selectedRows scorer query df),
      row.match_score = scorer query row.record.sample_material) := by
  constructor
  · intro r
    unfold selectedRows
    rw [List.mem_filter]
    constructor
    · rintro ⟨hmem, hdict⟩
      obtain ⟨s, hs⟩ := (dictMem_iff _ _).mp hdict
      rw [mem_match_scores_iff] at hs
      exact ⟨hmem, s, hs.1, hs.2⟩
    · rintro ⟨hmem, s, hex, hthr⟩
      refine ⟨hmem, (dictMem_iff _ _).mpr ⟨s, ?_⟩⟩
      rw [mem_match_scores_iff]
      exact ⟨hex, hthr⟩
  · intro row hrow
    rw [scoreRows_eq_map] at hrow
    obtain ⟨r, hr, hrw⟩ := List.mem_map.mp hrow
    unfold selectedRows at hr
    have hdict := (List.mem_filter.mp hr).2
    obtain ⟨s, hs⟩ := (dictMem_iff _ _).mp hdict
    have hsome := dictFind_isSome_of_mem hs
    obtain ⟨v, hv⟩ := Option.isSome_iff_exists.mp hsome
    subst hrw
    simp only [hv, Option.getD_some]
    exact dictFind_match_scores hv

/-- Witness for C5 at a concrete input: with the exact-match scorer, the
query EPOXY against a two-row frame (EPOXY twice) selects both rows and
both receive the name score 100. -/
theorem search_materials_selection_witness :
    (⟨"1", "EPOXY", "m", 0, 0, none, none⟩ : MaterialRecord) ∈
      selectedRows (fun q c => if q == c then (100 : ℚ) else 0) "EPOXY"
        [⟨"1", "EPOXY", "m", 0, 0, none, none⟩,
         ⟨"2", "EPOXY", "m", 0, 0, none, none⟩] ∧
    ∀ row ∈ scoreRows 1 1
        (match_scores (fun q c => if q == c then (100 : ℚ) else 0) "EPOXY"
          ["EPOXY", "EPOXY"])
        (selectedRows (fun q c => if q == c then (100 : ℚ) else 0) "EPOXY"
          [⟨"1", "EPOXY", "m", 0, 0, none, none⟩,
           ⟨"2", "EPOXY", "m", 0, 0, none, none⟩]),
      row.match_score = 100 := by
  have h := search_materials_selection
    (fun q c => if q == c then (100 : ℚ) else 0) "EPOXY" 1 1
    [⟨"1", "EPOXY", "m", 0, 0, none, none⟩,
     ⟨"2", "EPOXY", "m", 0, 0, none, none⟩]
  constructor
  · exact (h.1 _).mpr ⟨by decide, 100, by decide, by decide⟩
  · decide

/-! ### Sort order of the name-search results (C3) -/

theorem scoreRows_length (max_tml max_cvcm : ℚ) (ms : List (String × ℚ))
    (l : List MaterialRecord) :
    (scoreRows max_tml max_cvcm ms l).length = l.length := by
  rw [scoreRows_eq_map, List.length_map]

theorem sort_values_desc_length (rows : List ScoredRow) :
    (sort_values_desc rows).length = rows.length := by
  unfold sort_values_desc
  rw [List.length_reverse, List.length_insertionSort, List.length_reverse]

theorem pyHead_length_of_nonneg {α : Type} (n : ℤ) (l : List α) (h : 0 ≤ n) :
    (pyHead n l).length = min n.toNat l.length := by
  unfold pyHead
  rw [if_pos h, List.length_take]

/-- C6: in name-search mode with a positive `limit`, the result list
never exceeds `limit` entries; `results_returned` is the length of the
result list; `total_compliant` never exceeds `total_matched`;
`results_returned = min total_matched limit` when `compliant_only` is
false and `min total_compliant limit` when it is true; and the
`results_truncated` flag is emitted as `true` exactly when the
pre-truncation row count (compliant rows under `compliant_only`, all
matched rows otherwise) strictly exceeds `limit` (the two early returns
emit no flag, and there the pre-truncation count is `0 ≤ limit`). -/
theorem search_materials_counts (scorer : Scorer) (material : String)
    (max_tml max_cvcm : ℚ) (limit : ℤ) (compliant_only include_details : Bool)
    (df : List MaterialRecord) (r : SMResult)
    (hr : search_materials_frame scorer material max_tml max_cvcm limit
        compliant_only include_details df = r)
    (hlim : 1 ≤ limit) :
    r.results.length ≤ limit.toNat ∧
    r.results_returned = r.results.length ∧
    r.total_compliant ≤ r.total_matched ∧
    (compliant_only = false →
      r.results_returned = min r.total_matched limit.toNat) ∧
    (compliant_only = true →
      r.results_returned = min r.total_compliant limit.toNat) ∧
    (r.results_truncated = some true ↔
      limit < (if compliant_only = true then (r.total_compliant : ℤ)
        else (r.total_matched : ℤ))) := by
  have hlim0 : (0 : ℤ) ≤ limit := by omega
  subst hr
  unfold search_materials_frame
  dsimp only
  split
  · refine ⟨Nat.zero_le _, rfl, le_refl 0, fun _ => by simp,
      fun _ => by simp, ?_⟩
    constructor
    · intro hcontra
      simp at hcontra
    · intro hcontra
      rcases Bool.eq_false_or_eq_true compliant_only with hco | hco <;>
        simp [hco] at hcontra <;> omega
  · next h1 =>
    split
    · next h2 =>
      refine ⟨Nat.zero_le _, rfl, Nat.zero_le _, ?_, fun _ => by simp, ?_⟩
      · intro hco
        rw [h2.1] at hco
        simp at hco
      · constructor
        · intro hcontra
          simp at hcontra
        · intro hcontra
          rw [h2.1] at hcontra
          simp at hcontra
          omega
    · next h2 =>
      refine ⟨?_, rfl, List.length_filter_le _ _, ?_, ?_, ?_⟩
      · rw [List.length_map, pyHead_length_of_nonneg _ _ hlim0]
        exact Nat.min_le_left _ _
      · intro hco
        simp only [hco, List.length_map, pyHead_length_of_nonneg _ _ hlim0]
        simp
        omega
      · intro hco
        simp only [hco, List.length_map, pyHead_length_of_nonneg _ _ hlim0]
        simp
        omega
      · rcases Bool.eq_false_or_eq_true compliant_only with hco | hco <;>
          simp [hco, decide_eq_true_iff]

/-- Witness for C6 at a concrete input: one matching EPOXY row, limit 10,
`compliant_only = false`. -/
theorem search_materials_counts_witness :
    ((search_materials_frame (fun _ _ => (90 : ℚ)) "EPOXY" 1 1 10 false true
        [⟨"1", "EPOXY", "m", 0, 0, none, none⟩]).results.length ≤
      (10 : ℤ).toNat ∧
    (search_materials_frame (fun _ _ => (90 : ℚ)) "EPOXY" 1 1 10 false true
        [⟨"1", "EPOXY", "m", 0, 0, none, none⟩]).results_returned =
      (search_materials_frame (fun _ _ => (90 : ℚ)) "EPOXY" 1 1 10 false true
        [⟨"1", "EPOXY", "m", 0, 0, none, none⟩]).results.length ∧
    (search_materials_frame (fun _ _ => (90 : ℚ)) "EPOXY" 1 1 10 false true
        [⟨"1", "EPOXY", "m", 0, 0, none, none⟩]).total_compliant ≤
      (search_materials_frame (fun _ _ => (90 : ℚ)) "EPOXY" 1 1 10 false true
        [⟨"1", "EPOXY", "m", 0, 0, none, none⟩]).total_matched ∧
    (false = false →
      (search_materials_frame (fun _ _ => (90 : ℚ)) "EPOXY" 1 1 10 false true
        [⟨"1", "EPOXY", "m", 0, 0, none, none⟩]).results_returned =
        min (search_materials_frame (fun _ _ => (90 : ℚ)) "EPOXY" 1 1 10 false
          true [⟨"1", "EPOXY", "m", 0, 0, none, none⟩]).total_matched
          (10 : ℤ).toNat) ∧
    (false = true →
      (search_materials_frame (fun _ _ => (90 : ℚ)) "EPOXY" 1 1 10 false true
        [⟨"1", "EPOXY", "m", 0, 0, none, none⟩]).results_returned =
        min (search_materials_frame (fun _ _ => (90 : ℚ)) "EPOXY" 1 1 10 false
          true [⟨"1", "EPOXY", "m", 0, 0, none, none⟩]).total_compliant
          (10 : ℤ).toNat) ∧
    ((search_materials_frame (fun _ _ => (90 : ℚ)) "EPOXY" 1 1 10 false true
        [⟨"1", "EPOXY", "m", 0, 0, none, none⟩]).results_truncated =
        some true ↔
      (10 : ℤ) < (if false = true then
        ((search_materials_frame (fun _ _ => (90 : ℚ)) "EPOXY" 1 1 10 false
          true [⟨"1", "EPOXY", "m", 0, 0, none, none⟩]).total_compliant : ℤ)
        else ((search_materials_frame (fun _ _ => (90 : ℚ)) "EPOXY" 1 1 10
          false true
          [⟨"1", "EPOXY", "m", 0, 0, none, none⟩]).total_matched : ℤ)))) :=
  search_materials_counts (fun _ _ => (90 : ℚ)) "EPOXY" 1 1 10 false true
    [⟨"1", "EPOXY", "m", 0, 0, none, none⟩] _ rfl (by decide)

/-! ### Empty-result shapes in name-search mode (C8) -/

/-- C8: with zero above-threshold fuzzy matches the name search returns
the structured empty result with explicit zero counts and its
human-readable message (not an error); with `compliant_only` set, a
non-empty match set none of which is compliant returns an empty result
list that still reports the non-zero `total_matched` and a message
naming it, so the two cases are distinguishable by the caller. -/
theorem search_materials_empty_result_shape (scorer : Scorer)
    (material : String) (max_tml max_cvcm : ℚ) (limit : ℤ)
    (compliant_only include_details : Bool) (df : List MaterialRecord) :
    (match_scores scorer material (df.map (fun x => x.sample_material)) = [] →
      search_materials_frame scorer material max_tml max_cvcm limit
          compliant_only include_details df =
        { query := material
          max_tml := max_tml
          max_cvcm := max_cvcm
          results := []
          total_matched := 0
          total_compliant := 0
          results_returned := 0
          results_truncated := none
          compliant_only := none
          message := "No materials found matching the search term" }) ∧
    (compliant_only = true →
      selectedRows scorer material df ≠ [] →
      ((sort_values_desc (scoreRows max_tml max_cvcm
          (match_scores scorer material (df.map (fun x => x.sample_material)))
          (selectedRows scorer material df))).filter
        (fun x => x.tml_pass && x.cvcm_pass)).length = 0 →
      search_materials_frame scorer material max_tml max_cvcm limit
          compliant_only include_details df =
        { query := material
          max_tml := max_tml
          max_cvcm := max_cvcm
          results := []
          total_matched := (selectedRows scorer material df).length
          total_compliant := 0
          results_returned := 0
          results_truncated := none
          compliant_only := none
          message := "Found " ++ toString (selectedRows scorer material df).length ++
            " materials matching \x27" ++ material ++
            "\x27, but none meet compliance limits" } ∧
      0 < (selectedRows scorer material df).length) := by
  constructor
  · intro h
    have hsel : selectedRows scorer material df = [] := by
      unfold selectedRows
      rw [h]
      simp [dictMem]
    unfold search_materials_frame
    dsimp only
    rw [hsel]
    simp
  · intro hco hne hzero
    have hpos : 0 < (selectedRows scorer material df).length :=
      List.length_pos.mpr hne
    refine ⟨?_, hpos⟩
    unfold search_materials_frame
    dsimp only
    rw [if_neg (by omega), if_pos ⟨hco, hzero⟩]
    have hlen : (sort_values_desc (scoreRows max_tml max_cvcm
        (match_scores scorer material (df.map (fun x => x.sample_material)))
        (selectedRows scorer material df))).length =
        (selectedRows scorer material df).length := by
      rw [sort_values_desc_length, scoreRows_length]
    rw [hlen]

/-- Witness for C8 at two concrete inputs: a scorer below threshold gives
the zero-counts empty result; an above-threshold match whose TML exceeds
the limit under `compliant_only` gives an empty result list with
`total_matched = 1`. -/
theorem search_materials_empty_result_shape_witness :
    (search_materials_frame (fun _ _ => (0 : ℚ)) "XYZ" 1 1 10 true true
        [⟨"1", "EPOXY", "m", 0, 0, none, none⟩]).total_matched = 0 ∧
    (search_materials_frame (fun _ _ => (100 : ℚ)) "EPOXY" 1 1 10 true true
        [⟨"1", "EPOXY", "m", 5, 0, none, none⟩]).results = [] ∧
    (search_materials_frame (fun _ _ => (100 : ℚ)) "EPOXY" 1 1 10 true true
        [⟨"1", "EPOXY", "m", 5, 0, none, none⟩]).total_matched = 1 := by
  have hA := (search_materials_empty_result_shape (fun _ _ => (0 : ℚ)) "XYZ"
    1 1 10 true true [⟨"1", "EPOXY", "m", 0, 0, none, none⟩]).1 (by decide)
  have hB := (search_materials_empty_result_shape (fun _ _ => (100 : ℚ))
    "EPOXY" 1 1 10 true true [⟨"1", "EPOXY", "m", 5, 0, none, none⟩]).2
    rfl (by decide) (by decide)
  refine ⟨by rw [hA], by rw [hB.1], by rw [hB.1]; decide⟩

/-! ### The 100-candidate extraction cap (C10) -/

/-- C10: the fuzzy-extraction step passes `limit=100` to
`process.extract`, so at most 100 candidate pairs reach the threshold
filter, at most 100 distinct `sample_material` names can contribute rows
to the result (and hence to `total_matched` / `total_compliant`), and a
dataset row whose name appears in none of the extracted candidate pairs
is excluded from the selection regardless of its score or of the
caller-supplied result limit. -/
theorem search_materials_extract_cap (scorer : Scorer) (query : String)
    (df : List MaterialRecord) :
    (extract scorer query (df.map (fun x => x.sample_material)) 100).length ≤
      100 ∧
    ((selectedRows scorer query df).map
        (fun r => r.sample_material)).toFinset.card ≤ 100 ∧
    (∀ r ∈ df,
      (∀ s, (r.sample_material, s) ∉
          extract scorer query (df.map (fun x => x.sample_material)) 100) →
      r ∉ selectedRows scorer query df) := by
  refine ⟨extract_length_le scorer query _ 100, ?_, ?_⟩
  · have hsub : ((selectedRows scorer query df).map
        (fun r => r.sample_material)).toFinset ⊆
        ((extract scorer query (df.map (fun x => x.sample_material)) 100).map
          (fun p => p.1)).toFinset := by
      intro n hn
      rw [List.mem_toFinset] at hn ⊢
      obtain ⟨r, hr, hrn⟩ := List.mem_map.mp hn
      unfold selectedRows at hr
      have hdict := (List.mem_filter.mp hr).2
      obtain ⟨s, hs⟩ := (dictMem_iff _ _).mp hdict
      rw [mem_match_scores_iff] at hs
      subst hrn
      exact List.mem_map.mpr ⟨(r.sample_material, s), hs.1, rfl⟩
    calc ((selectedRows scorer query df).map
          (fun r => r.sample_material)).toFinset.card
        ≤ ((extract scorer query (df.map (fun x => x.sample_material))
            100).map (fun p => p.1)).toFinset.card :=
          Finset.card_le_card hsub
      _ ≤ ((extract scorer query (df.map (fun x => x.sample_material))
            100).map (fun p => p.1)).length := List.toFinset_card_le _
      _ = (extract scorer query
            (df.map (fun x => x.sample_material)) 100).length :=
          List.length_map _ _
      _ ≤ 100 := extract_length_le scorer query _ 100
  · intro r _ hnone hsel
    unfold selectedRows at hsel
    have hdict := (List.mem_filter.mp hsel).2
    obtain ⟨s, hs⟩ := (dictMem_iff _ _).mp hdict
    rw [mem_match_scores_iff] at hs
    exact hnone s hs.1

/-- Dataset used by the C10 witness: 101 rows, names 0 through 99
followed by a final row named Z. -/
def capDf : List MaterialRecord :=
  ((List.range 100).map
      (fun i => ⟨toString i, toString i, "m", 0, 0, none, none⟩)) ++
    [⟨"Z", "Z", "m", 0, 0, none, none⟩]

/-- Scorer used by the C10 witness: Z scores 90 (above the threshold),
every other name 95. -/
def capScorer : Scorer := fun _ c => if c == "Z" then 90 else 95

/-- Witness for C10: in the 101-row dataset the Z row scores 90 — above
the threshold — yet is excluded from the selection, because the
extraction keeps only the 100 best candidates. -/
theorem search_materials_extract_cap_witness :
    (⟨"Z", "Z", "m", 0, 0, none, none⟩ : MaterialRecord) ∉
      selectedRows capScorer "Q" capDf := by
  refine (search_materials_extract_cap capScorer "Q" capDf).2.2
    ⟨"Z", "Z", "m", 0, 0, none, none⟩ (by decide) ?_
  intro s hs
  have hz : "Z" ∈ (extract capScorer "Q"
      (capDf.map (fun x => x.sample_material)) 100).map (fun p => p.1) :=
    List.mem_map.mpr ⟨("Z", s), hs, rfl⟩
  revert hz
  decide

end Outgassing
